import Mathlib

/-!
Shallow embedding of the DLNA MediaRenderer control module
(`modules/control/dlna.cpp`): action dispatcher, action handlers,
parameter codec and event publisher, together with proofs about them.

The file models the current revision of `dlna.cpp` (the one using
`std::unordered_map` and the `actions[]` sentinel table); the single
exception is `build_event_xml_v2`, which models the older revision's
`build_event_xml` (the one applying `std::regex_replace` escaping to the
serialized document), since that revision is also part of the sources.

Machine integers are modelled as `Nat`/`Int` with explicit `% 2^w`
wrapping where C integer conversions can overflow.  External libraries
(libupnp's ixml DOM and VLC's player capability) are modelled by small
pure functions, documented at their definitions.
-/

/-! ## Small string helpers -/

/-- Zero padding to two digits, as produced by `snprintf` with `%02u`
for arguments below 100. -/
def pad2 (n : Nat) : String :=
  if n < 10 then "0" ++ toString n else toString n

/-- `hasSubList pat s` is true iff `pat` occurs as a contiguous sublist of
`s` (used to state facts about the produced XML text). -/
def hasSubList (pat : List Char) : List Char → Bool
  | [] => pat.isEmpty
  | c :: cs => List.isPrefixOf pat (c :: cs) || hasSubList pat cs

/-- Substring test on strings. -/
def hasSub (pat s : String) : Bool :=
  hasSubList pat.toList s.toList

/-! ## Parameter maps

`parammap` is `std::unordered_map<std::string, std::string>` in the
source.  We model it as an association list whose keys are unique by
construction: `map_assign` models `params[key] = value` (overwrite the
entry if the key is present, else append a new entry) and `map_find`
models `params.find(key)`. -/

abbrev parammap := List (String × String)

def map_find (m : parammap) (k : String) : Option String :=
  (m.find? (fun p => p.1 == k)).map (fun p => p.2)

def map_assign (m : parammap) (k v : String) : parammap :=
  match m with
  | [] => [(k, v)]
  | p :: rest => if p.1 == k then (k, v) :: rest else p :: map_assign rest k v

theorem map_find_assign (m : parammap) (k v q : String) :
    map_find (map_assign m k v) q = if q = k then some v else map_find m q := by
  induction m with
  | nil =>
    simp only [map_assign, map_find, List.find?]
    by_cases h : q = k
    · subst h; simp
    · have : (k == q) = false := by
        simp only [beq_eq_false_iff_ne, ne_eq]
        exact fun h2 => h h2.symm
      simp [this, h, map_find, List.find?]
  | cons p rest ih =>
    simp only [map_assign]
    by_cases hpk : p.1 = k
    · have hb : (p.1 == k) = true := by simpa [beq_iff_eq] using hpk
      simp only [hb, if_pos]
      by_cases hq : q = k
      · subst hq; simp [map_find, List.find?]
      · have hkq : (k == q) = false := by
          simp only [beq_eq_false_iff_ne, ne_eq]
          exact fun h2 => hq h2.symm
        have hpq : (p.1 == q) = false := by rw [hpk]; exact hkq
        simp [map_find, List.find?, hkq, hpq, hq]
    · have hpkb : (p.1 == k) = false := by simpa [beq_eq_false_iff_ne] using hpk
      simp only [hpkb, Bool.false_eq_true, if_false]
      by_cases hpq : p.1 = q
      · have hb : (p.1 == q) = true := by simpa [beq_iff_eq] using hpq
        have hq : ¬ q = k := fun h => hpk (by rw [hpq, h])
        simp [map_find, List.find?, hb, hq]
      · have hb : (p.1 == q) = false := by simpa [beq_eq_false_iff_ne] using hpq
        simp only [map_find, List.find?, hb]
        exact ih

/-! ## `sscanf` / `strtoul` input models

The handlers parse strings with `sscanf("%u...")`, `sscanf("%d...")` and
`std::stoul`.  These are modelled character by character: skip C
whitespace, then an optional sign, then at least one decimal digit.
`%u` assignment converts through `unsigned int`, hence the `% 2^32`
wrap; a minus sign negates modulo the unsigned range (`strtoul`
semantics).  A failed conversion is `none`. -/

def isCSpace (c : Char) : Bool :=
  c = ' ' || c = '\t' || c = '\n' || c = '\r' || c = '\x0b' || c = '\x0c'

def skipSpaces : List Char → List Char
  | [] => []
  | c :: cs => if isCSpace c then skipSpaces cs else c :: cs

/-- Accumulate a run of decimal digits (the caller has checked the first
character is a digit). -/
def readDigits : List Char → Nat → Nat × List Char
  | [], acc => (acc, [])
  | c :: cs, acc =>
    if c.isDigit then readDigits cs (acc * 10 + (c.toNat - 48)) else (acc, c :: cs)

/-- One `%u` conversion: optional whitespace, optional sign, digits;
the value is reduced into the `unsigned int` range. -/
def scanU (s : List Char) : Option (Nat × List Char) :=
  let s1 := skipSpaces s
  let signed : Bool × List Char :=
    match s1 with
    | '+' :: r => (false, r)
    | '-' :: r => (true, r)
    | _ => (false, s1)
  match signed.2 with
  | [] => none
  | c :: cs =>
    if c.isDigit then
      let d := readDigits (c :: cs) 0
      let v := if signed.1 then (2 ^ 32 - d.1 % 2 ^ 32) % 2 ^ 32 else d.1 % 2 ^ 32
      some (v, d.2)
    else none

/-- A literal (non-whitespace) character in a `scanf` format: must match
the next input character exactly. -/
def scanLit (c : Char) : List Char → Option (List Char)
  | [] => none
  | x :: r => if x = c then some r else none

/-- `sscanf(s, "%u:%u:%u", ...)`: the list of values assigned, in order.
`sscanf` assigns each converted field as it goes, so a partial match
still overwrites a prefix of the output variables; the length of the
returned list is `sscanf`'s return value. -/
def sscanf_uuu (s : List Char) : List Nat :=
  match scanU s with
  | none => []
  | some (v1, r1) =>
    match scanLit ':' r1 with
    | none => [v1]
    | some r2 =>
      match scanU r2 with
      | none => [v1]
      | some (v2, r3) =>
        match scanLit ':' r3 with
        | none => [v1, v2]
        | some r4 =>
          match scanU r4 with
          | none => [v1, v2]
          | some (v3, _) => [v1, v2, v3]

/-- `sscanf(s, "%u:%u", ...)`: values assigned, in order. -/
def sscanf_uu (s : List Char) : List Nat :=
  match scanU s with
  | none => []
  | some (v1, r1) =>
    match scanLit ':' r1 with
    | none => [v1]
    | some r2 =>
      match scanU r2 with
      | none => [v1]
      | some (v2, _) => [v1, v2]

/-- `std::stoul` (base 10): whitespace, optional sign, digits.
`none` models a thrown exception: `std::invalid_argument` when no digits
can be converted, `std::out_of_range` when the digit string exceeds
`ULONG_MAX`.  A minus sign negates modulo `2^64` (`strtoul` semantics). -/
def cpp_stoul (s : String) : Option Nat :=
  let s1 := skipSpaces s.toList
  let signed : Bool × List Char :=
    match s1 with
    | '+' :: r => (false, r)
    | '-' :: r => (true, r)
    | _ => (false, s1)
  match signed.2 with
  | [] => none
  | c :: cs =>
    if c.isDigit then
      let d := readDigits (c :: cs) 0
      if d.1 < 2 ^ 64 then
        some (if signed.1 then (2 ^ 64 - d.1) % 2 ^ 64 else d.1)
      else none
    else none

/-! ## Time formatting (`time_to_string`) -/

/-- `time_to_string` from `dlna.cpp`: ticks (microseconds, a
non-negative `vlc_tick_t`) to `H:MM:SS`.  `SEC_FROM_VLC_TICK` is
division by `CLOCK_FREQ = 10^6`; `h`, `m`, `s` are `unsigned int`, so
the hour field wraps at `2^32` (`m` and `s` are below 60 and never
wrap).  The `snprintf < 0` fallback branch is unreachable and not
modelled. -/
def time_to_string (ticks : Nat) : String :=
  let tis := ticks / 1000000
  let s := tis % 60
  let tis1 := tis - s
  let m := (tis1 / 60) % 60
  let tis2 := tis1 - 60 * m
  let h := (tis2 / (60 * 60)) % 2 ^ 32
  toString h ++ ":" ++ pad2 m ++ ":" ++ pad2 s

/-! ## Fraction codec (`gcd`, `frac_to_float`, `float_to_frac`)

C `float` arithmetic is modelled by exact rationals (`ℚ`).  This
idealisation is accurate only while every intermediate value rounds to
itself in binary32, so each theorem below that touches a float
quantity either evaluates at concrete inputs whose intermediates are
binary32-exact, or carries an explicit bound confining it to that
range (see `float_to_frac` and the bound in the C2 theorem).
`std::lround` rounds half away from zero.  The recursive `gcd` from the
source uses C `%`, i.e. truncated remainder (`Int.tmod`); it is given a
fuel argument (any fuel above `|d|` behaves like the source's
unbounded recursion) so that it stays structurally recursive and
computable by `decide`; `gcd` itself shadows nothing (the source name
`gcd` collides with Mathlib, hence the `cpp` prefix). -/

def lround (q : ℚ) : Int :=
  if 0 ≤ q then ⌊q + 1 / 2⌋ else ⌈q - 1 / 2⌉

def gcdAux : Nat → Int → Int → Int
  | 0, n, _ => n
  | fuel + 1, n, d => if d = 0 then n else gcdAux fuel d (n.tmod d)

/-- `long gcd(long n, long d)` from `dlna.cpp`. -/
def cppGcd (n d : Int) : Int :=
  gcdAux (d.natAbs + 1) n d

/-- `frac_to_float`: parse `"%d/%u"` or `"%d"`; invalid input or a zero
numerator or denominator yields speed `1.0`.  The first `sscanf` call
assigns `n` even when it fails to match the full `"%d/%u"` pattern, in
which case the second call re-reads the same `n`; `d` keeps its
initialiser `1`.  (`%d` overflow is undefined behaviour in C and is
modelled as the exact value.) -/
def frac_to_float (frac : String) : ℚ :=
  let s1 := skipSpaces frac.toList
  let signed : Bool × List Char :=
    match s1 with
    | '+' :: r => (false, r)
    | '-' :: r => (true, r)
    | _ => (false, s1)
  match signed.2 with
  | [] => 1
  | c :: cs =>
    if c.isDigit then
      let dg := readDigits (c :: cs) 0
      let n : Int := if signed.1 then -(dg.1 : Int) else (dg.1 : Int)
      let d : Nat :=
        match scanLit '/' dg.2 with
        | none => 1
        | some r =>
          match scanU r with
          | none => 1
          | some (v, _) => v
      if n = 0 ∨ d = 0 then 1 else (n : ℚ) / (d : ℚ)
    else 1

/-- `float_to_frac`: `N/D` in hundredths reduced by `gcd`, with C
truncated division (`Int.tdiv`).

The source computes `std::lround(frac * 100)` on a binary32 `frac`;
here the multiply is exact in `ℚ`.  The two computations agree exactly
when the two binary32 roundings (of the input and of the product)
cannot move the product across a half-integer: with `N = frac * 100`,
each rounding has relative error at most `2⁻²⁴`, so for `0 < N < 2²²`
the absolute error is below `(2²² - 1) · (2⁻²³ + 2⁻⁴⁸) < 1/2` and
`lroundf` yields the same integer `N`.  Statements about
`float_to_frac` therefore either stay inside this range (the C2
theorem carries the bound `n * 100 < 2²² * d`) or evaluate it at small
concrete inputs (`100/3` and `-50`, where binary32 and `ℚ` agree);
outside the range binary32 diverges — e.g. at `16777215/1` the float
product rounds to `1677721472` and the source returns a different
string, which is why the bound is part of the C2 statement. -/
def float_to_frac (frac : ℚ) : String :=
  let n : Int := lround (frac * 100)
  let d : Int := 100
  let common_denominator := cppGcd n d
  toString (n.tdiv common_denominator) ++ "/" ++
    toString (d.tdiv common_denominator)

/-! ## Player capability model

The external `vlc_player` interface (out of scope for the module, spec
section 1) is modelled as a record of the values the handlers read,
plus fields recording the mutation requests they issue.  Locking is
not modelled: each handler runs against one snapshot, which is the
locking discipline the source follows. -/

structure PlayerState where
  state : Int        -- enum vlc_player_state value
  error : Int        -- enum vlc_player_error value
  rate : ℚ
  length : Nat       -- ticks
  time : Nat         -- ticks
  volume : ℚ         -- aout volume
  muted : Bool
  started : Bool
  media : Option String
  lastSeek : Option Nat  -- ticks of the last vlc_player_SeekByTime request
  deriving DecidableEq, Repr

def VLC_PLAYER_STATE_STOPPED : Int := 0
def VLC_PLAYER_STATE_STARTED : Int := 1
def VLC_PLAYER_STATE_PLAYING : Int := 2
def VLC_PLAYER_STATE_PAUSED : Int := 3
def VLC_PLAYER_STATE_STOPPING : Int := 4
def VLC_PLAYER_ERROR_NONE : Int := 0

def vlc_player_SetCurrentMedia (uri : String) (ps : PlayerState) : PlayerState :=
  { ps with media := some uri }

def vlc_player_Start (ps : PlayerState) : PlayerState :=
  { ps with started := true }

def vlc_player_Resume (ps : PlayerState) : PlayerState := ps

def vlc_player_Pause (ps : PlayerState) : PlayerState := ps

def vlc_player_Stop (ps : PlayerState) : PlayerState := ps

def vlc_player_ChangeRate (rate : ℚ) (ps : PlayerState) : PlayerState :=
  { ps with rate := rate }

def vlc_player_SeekByTime (ticks : Nat) (ps : PlayerState) : PlayerState :=
  { ps with lastSeek := some ticks }

def vlc_player_aout_SetVolume (v : ℚ) (ps : PlayerState) : PlayerState :=
  { ps with volume := v }

def vlc_player_aout_Mute (b : Bool) (ps : PlayerState) : PlayerState :=
  { ps with muted := b }

/-! ## Action handlers

Signature as in the source: `(in_params, out_params, p_intf) → bool`,
rendered as `in_params → player → Except Unit (ok, out_params, player)`.
`.error ()` models a C++ exception escaping the handler (the source has
no try/catch around any handler body). -/

deriving instance DecidableEq for Except

abbrev HandlerResult := Except Unit (Bool × parammap × PlayerState)

abbrev ActionRequestHandler := parammap → PlayerState → HandlerResult

def handle_AVT_SetAVTransportURI (in_params : parammap) (ps : PlayerState) :
    HandlerResult :=
  match map_find in_params "CurrentURI" with
  | none => .ok (false, [], ps)
  | some uri =>
    -- input_item_New fails only on allocation failure; not modelled
    let start := ps.started
    let ps1 := vlc_player_SetCurrentMedia uri ps
    let ps2 := if start then vlc_player_Start ps1 else ps1
    .ok (true, [], ps2)

def handle_AVT_GetMediaInfo (_in_params : parammap) (ps : PlayerState) :
    HandlerResult :=
  .ok (true, map_assign [] "MediaDuration" (time_to_string ps.length), ps)

def handle_AVT_GetTransportInfo (_in_params : parammap) (ps : PlayerState) :
    HandlerResult :=
  let st :=
    if ps.state = VLC_PLAYER_STATE_STOPPED then "STOPPED"
    else if ps.state = VLC_PLAYER_STATE_PLAYING then "PLAYING"
    else if ps.state = VLC_PLAYER_STATE_PAUSED then "PAUSED_PLAYBACK"
    else if ps.state = VLC_PLAYER_STATE_STARTED ∨
            ps.state = VLC_PLAYER_STATE_STOPPING then "TRANSITIONING"
    else "UNKNOWN"
  let status :=
    if ps.error = VLC_PLAYER_ERROR_NONE then "OK" else "ERROR_OCCURRED"
  let out := map_assign (map_assign (map_assign []
      "CurrentTransportState" st)
      "CurrentTransportStatus" status)
      "CurrentSpeed" (float_to_frac ps.rate)
  .ok (true, out, ps)

def handle_AVT_GetPositionInfo (_in_params : parammap) (ps : PlayerState) :
    HandlerResult :=
  let out := map_assign (map_assign (map_assign (map_assign (map_assign
      (map_assign (map_assign (map_assign []
      "Track" "0")
      "TrackDuration" (time_to_string ps.length))
      "TrackMetaData" "")
      "TrackURI" "")
      "RelTime" (time_to_string ps.time))
      "AbsTime" (time_to_string ps.time))
      "RelCount" (toString ps.time))
      "AbsCount" (toString ps.time)
  .ok (true, out, ps)

def handle_AVT_Stop (_in_params : parammap) (ps : PlayerState) :
    HandlerResult :=
  .ok (true, [], vlc_player_Stop ps)

def handle_AVT_Play (in_params : parammap) (ps : PlayerState) :
    HandlerResult :=
  match map_find in_params "Speed" with
  | none => .ok (false, [], ps)
  | some speed =>
    let new_rate := frac_to_float speed
    let ps1 := if ps.rate ≠ new_rate then vlc_player_ChangeRate new_rate ps else ps
    let ps2 := if ps1.started then vlc_player_Resume ps1 else vlc_player_Start ps1
    .ok (true, [], ps2)

def handle_AVT_Pause (_in_params : parammap) (ps : PlayerState) :
    HandlerResult :=
  .ok (true, [], vlc_player_Pause ps)

def handle_AVT_Seek (in_params : parammap) (ps : PlayerState) :
    HandlerResult :=
  match map_find in_params "Unit" with
  | none => .ok (false, [], ps)
  | some u =>
    match map_find in_params "Target" with
    | none => .ok (false, [], ps)
    | some target =>
      if u = "ABS_TIME" ∨ u = "REL_TIME" then
        -- unsigned int h = 0, m = 0, s = 0; sscanf("%u:%u:%u") == 3 ||
        -- sscanf("%u:%u") == 2.  The first call assigns a prefix of
        -- h, m, s even when it matches fewer than 3 fields.
        let a1 := sscanf_uuu target.toList
        let h1 := a1.getD 0 0
        let m1 := a1.getD 1 0
        let s1 := a1.getD 2 0
        let parsed : Option (Nat × Nat × Nat) :=
          if a1.length = 3 then some (h1, m1, s1)
          else
            let a2 := sscanf_uu target.toList
            if a2.length = 2 then some (h1, a2.getD 0 0, a2.getD 1 0)
            else none
        match parsed with
        | none => .ok (false, [], ps)
        | some (h, m, s) =>
          if 60 ≤ m ∨ 60 ≤ s then .ok (false, [], ps)
          else
            .ok (true, [], vlc_player_SeekByTime
              (((h * 60 * 60 + m * 60 + s) % 2 ^ 32) * 1000000) ps)
      else .ok (false, [], ps)

def SINK_PROTOCOL_INFO : String :=
  "http-get:*:video/mpeg:*,http-get:*:video/mp4:*," ++
  "http-get:*:video/vnd.dlna.mpeg-tts:*,http-get:*:video/avi:*," ++
  "http-get:*:video/x-matroska:*,http-get:*:video/x-ms-wmv:*," ++
  "http-get:*:video/wtv:*,http-get:*:audio/mpeg:*,http-get:*:audio/mp3:*," ++
  "http-get:*:audio/mp4:*,http-get:*:audio/x-ms-wma*,http-get:*:audio/wav:*," ++
  "http-get:*:audio/L16:*,http-get:*image/jpeg:*,http-get:*image/png:*," ++
  "http-get:*image/gif:*,http-get:*image/tiff:*"

def handle_CM_GetProtocolInfo (_in_params : parammap) (ps : PlayerState) :
    HandlerResult :=
  .ok (true, map_assign (map_assign [] "Source" "") "Sink" SINK_PROTOCOL_INFO, ps)

def handle_RC_GetVolume (_in_params : parammap) (ps : PlayerState) :
    HandlerResult :=
  -- VLC_CLIP(volume, 0.0, 1.0)
  let volume := min (max ps.volume 0) 1
  .ok (true, map_assign [] "CurrentVolume" (toString (lround (volume * 100))), ps)

def handle_RC_SetVolume (in_params : parammap) (ps : PlayerState) :
    HandlerResult :=
  match map_find in_params "DesiredVolume" with
  | none => .ok (false, [], ps)
  | some str =>
    match cpp_stoul str with
    | none => .error ()  -- std::stoul throws out of the handler
    | some v0 =>
      -- VLC_CLIP(std::stoul(…), 0, 100)
      let v := min (max v0 0) 100
      .ok (true, [], vlc_player_aout_SetVolume ((v : ℚ) / 100) ps)

def handle_RC_GetMute (_in_params : parammap) (ps : PlayerState) :
    HandlerResult :=
  .ok (true, map_assign [] "CurrentMute" (if ps.muted then "1" else "0"), ps)

def handle_RC_SetMute (in_params : parammap) (ps : PlayerState) :
    HandlerResult :=
  match map_find in_params "DesiredMute" with
  | none => .ok (false, [], ps)
  | some m =>
    let ps1 :=
      if m = "1" ∨ m = "true" ∨ m = "yes" then vlc_player_aout_Mute true ps
      else if m = "0" ∨ m = "false" ∨ m = "no" then vlc_player_aout_Mute false ps
      else ps
    .ok (true, [], ps1)

/-! ## Action registry -/

def SRV_AVT : String := "urn:upnp-org:serviceId:AVTransport"
def SRV_RC : String := "urn:upnp-org:serviceId:RenderingControl"
def SRV_CM : String := "urn:upnp-org:serviceId:ConnectionManager"

/-- The static `actions[]` table (the `{NULL, NULL, NULL}` sentinel is
the end of the list). -/
def actions : List (String × String × ActionRequestHandler) :=
  [ (SRV_AVT, "SetAVTransportURI", handle_AVT_SetAVTransportURI),
    (SRV_AVT, "GetMediaInfo", handle_AVT_GetMediaInfo),
    (SRV_AVT, "GetTransportInfo", handle_AVT_GetTransportInfo),
    (SRV_AVT, "GetPositionInfo", handle_AVT_GetPositionInfo),
    (SRV_AVT, "Stop", handle_AVT_Stop),
    (SRV_AVT, "Play", handle_AVT_Play),
    (SRV_AVT, "Pause", handle_AVT_Pause),
    (SRV_AVT, "Seek", handle_AVT_Seek),
    (SRV_CM, "GetProtocolInfo", handle_CM_GetProtocolInfo),
    (SRV_RC, "GetVolume", handle_RC_GetVolume),
    (SRV_RC, "SetVolume", handle_RC_SetVolume),
    (SRV_RC, "GetMute", handle_RC_GetMute),
    (SRV_RC, "SetMute", handle_RC_SetMute) ]

/-- Registry lookup: linear scan, exact string equality on both fields,
first match returned; absence is `none`. -/
def lookupAction (service action : String) :
    Option (String × String × ActionRequestHandler) :=
  actions.find? (fun e => e.1 == service && e.2.1 == action)

/-! ## Parameter decoding (`build_param_map`) -/

/-- One child element of the request body as the ixml DOM presents it:
`nodeName` is `ixmlNode_getNodeName` (may be absent), `firstChild` is
`ixmlNode_getFirstChild` (outer `Option`) and that node's
`ixmlNode_getNodeValue` (inner `Option`). -/
structure ParamChild where
  nodeName : Option String
  firstChild : Option (Option String)
  deriving DecidableEq, Repr

/-- Loop body of `build_param_map`: the three `continue` guards, then
`params[key] = value`. -/
def param_step (params : parammap) (c : ParamChild) : parammap :=
  match c.nodeName with
  | none => params
  | some key =>
    match c.firstChild with
    | none => params
    | some vnode =>
      match vnode with
      | none => params
      | some value => map_assign params key value

def build_param_map (children : List ParamChild) : parammap :=
  children.foldl param_step []

/-- The spec's reading of `decodeParams`: the (name, value) pairs of the
children that have both a tag name and a first-child text value, in
document order ("entries whose name or value is absent are skipped"). -/
def validParams : List ParamChild → List (String × String)
  | [] => []
  | c :: cs =>
    match c.nodeName with
    | none => validParams cs
    | some key =>
      match c.firstChild with
      | none => validParams cs
      | some vnode =>
        match vnode with
        | none => validParams cs
        | some value => (key, value) :: validParams cs

/-! ## Dispatcher (`EventHandler::onActionRequest`) -/

def UPNP_E_SUCCESS : Int := 0
def UPNP_E_INTERNAL_ERROR : Int := -911

/-- Terminal state of one action request: the dispatcher's return value
together with the `ErrCode` and `ActionResult` fields it stored in the
`UpnpActionRequest` event.  `thrown` models a C++ exception escaping
the dispatcher (no outcome is produced, no field is set). -/
inductive DispatchOutcome where
  | normal (ret : Int) (errCode : Int) (actionResult : Option parammap)
      (ps : PlayerState)
  | thrown
  deriving DecidableEq, Repr

/-- Result of the inner registry-scan loop for one action node. -/
inductive ScanOutcome where
  | found (out_params : parammap) (ps : PlayerState)
  | noMatch (ps : PlayerState)
  | thrown
  deriving DecidableEq, Repr

/-- The inner `for (i; actions[i].handler; i++)` loop: entries whose
service or action differ are skipped, a failing handler falls through
to the rest of the table (`continue`), a succeeding handler terminates
the scan with its output parameters. -/
def scanActions (table : List (String × String × ActionRequestHandler))
    (service_id action_name : String) (in_params : parammap)
    (ps : PlayerState) : ScanOutcome :=
  match table with
  | [] => .noMatch ps
  | e :: rest =>
    if e.1 == service_id && e.2.1 == action_name then
      match e.2.2 in_params ps with
      | .error _ => .thrown
      | .ok (r, out_params, ps1) =>
        if r then .found out_params ps1
        else scanActions rest service_id action_name in_params ps1
    else scanActions rest service_id action_name in_params ps

/-- `EventHandler::onActionRequest`.  The request body is the list of
top-level child elements of the `ActionRequest` document, each given as
its own list of parameter children (the `!body` null-pointer guard,
which returns 0 without touching the event, is a degenerate transport
case and is not modelled; `UpnpMakeActionResponse` and
`UpnpAddToActionResponse` are external allocation/serialisation steps
modelled as succeeding).  On handler success the response document
holds exactly the handler's output parameters; when no handler match
succeeds the dispatcher stores `UPNP_E_INTERNAL_ERROR` and leaves
`ActionResult` unset. -/
def onActionRequest (service_id action_name : String)
    (body : List (List ParamChild)) (ps : PlayerState) : DispatchOutcome :=
  match body with
  | [] => .normal UPNP_E_INTERNAL_ERROR UPNP_E_INTERNAL_ERROR none ps
  | node :: rest =>
    match scanActions actions service_id action_name (build_param_map node) ps with
    | .thrown => .thrown
    | .found out_params ps1 =>
      .normal UPNP_E_SUCCESS UPNP_E_SUCCESS (some out_params) ps1
    | .noMatch ps1 => onActionRequest service_id action_name rest ps1

/-! ## Event publisher state mapping (`player_state_changed`) -/

/-- `player_state_changed`: the `(service id, variable name, value)`
triple passed to `emit_event` for a player-state callback. -/
def player_state_changed (state : Int) : String × String × String :=
  let new_state :=
    if state = VLC_PLAYER_STATE_STOPPED then "STOPPED"
    else if state = VLC_PLAYER_STATE_PLAYING then "PLAYING"
    else if state = VLC_PLAYER_STATE_PAUSED then "PAUSED_PLAYBACK"
    else if state = VLC_PLAYER_STATE_STARTED ∨
            state = VLC_PLAYER_STATE_STOPPING then "TRANSITIONING"
    else "UNKNOWN"
  (SRV_AVT, "TransportState", new_state)

/-! ## Event XML construction (`build_event_xml`)

The event document always has the fixed shape
`Event > InstanceID val="0" > one element per (key, value) pair`
(spec section 6, "Event wire format"), so the DOM tree is modelled by
the list of argument elements.  Every external ixml call that can fail
(`createDocument`, `createElement`, `appendChild`, `setAttribute`,
`ixmlNodetoString`, and `vlc_xml_encode` in the current revision) is
gated by a failure oracle `ok : Nat → Bool` consulted at consecutive
step indices, mirroring the source's step-by-step error handling. -/

/-- `<key val="value">` argument element under `InstanceID`. -/
structure ArgElem where
  name : String
  val : String
  deriving DecidableEq, Repr

/-- The complete event tree for a pair list. -/
def eventArgs (pairs : List (String × String)) : List ArgElem :=
  pairs.map (fun p => ⟨p.1, p.2⟩)

/-- Modelled from the spec: `ixmlNodetoString` serialisation of the
constructed DOM tree (the ixml library is an external collaborator, not
part of these sources).  Attribute values are emitted raw; all escaping
visible in the sources is performed by the callers (`vlc_xml_encode`
in the current revision, the `std::regex_replace` pass in the older
one), matching the spec's description of the codec. -/
def serializeArg (a : ArgElem) : String :=
  "<" ++ a.name ++ " val=\"" ++ a.val ++ "\"></" ++ a.name ++ ">"

def serializeEventDoc (args : List ArgElem) : String :=
  "<Event><InstanceID val=\"0\">" ++
    String.join (args.map serializeArg) ++
    "</InstanceID></Event>"

/-- Modelled from the spec: `vlc_xml_encode` (VLC core's string helper,
not part of these sources) escapes the five XML special characters in a
single left-to-right pass over the serialised document. -/
def vlc_xml_encode (s : String) : String :=
  String.mk (List.flatten (s.toList.map (fun c =>
    if c = '&' then "&amp;".toList
    else if c = '"' then "&quot;".toList
    else if c = '\'' then "&#39;".toList
    else if c = '<' then "&lt;".toList
    else if c = '>' then "&gt;".toList
    else [c])))

/-- `std::regex_replace(s, std::regex(c), rep)` for a single-character
pattern: replace every occurrence of `c`, left to right, without
rescanning the replacement text. -/
def regex_replace (s : String) (c : Char) (rep : String) : String :=
  String.mk (List.flatten (s.toList.map (fun x =>
    if x = c then rep.toList else [x])))

/-- The escaping pass of the older revision's `build_event_xml`:
`&`, `"`, `'`, `<`, `>` in that order, `&` first. -/
def xml_escape_pass (s : String) : String :=
  regex_replace (regex_replace (regex_replace (regex_replace (regex_replace
    s '&' "&amp;") '"' "&quot;") '\'' "&apos;") '<' "&lt;") '>' "&gt;"

/-- The per-pair loop body: `createElement(keys[i])`,
`appendChild(instance, arg)`, `setAttribute(arg, "val", values[i])`,
three oracle steps per pair; any failure aborts the whole
construction. -/
def buildArgs (ok : Nat → Bool) :
    Nat → List (String × String) → Option (List ArgElem × Nat)
  | ctr, [] => some ([], ctr)
  | ctr, (k, v) :: rest =>
    if ok ctr then
      if ok (ctr + 1) then
        if ok (ctr + 2) then
          (buildArgs ok (ctr + 3) rest).map
            (fun r => (ArgElem.mk k v :: r.1, r.2))
        else none
      else none
    else none

/-- The shared document-construction prefix of both revisions:
`createDocument`, `createElement("Event")`, `appendChild`,
`createElement("InstanceID")`, `appendChild`,
`setAttribute(instance, "val", "0")` — six oracle steps — then the
per-pair loop. -/
def buildEventTree (ok : Nat → Bool) (pairs : List (String × String)) :
    Option (List ArgElem × Nat) :=
  if ok 0 then if ok 1 then if ok 2 then if ok 3 then if ok 4 then if ok 5 then
    buildArgs ok 6 pairs
  else none else none else none else none else none else none

/-- `build_event_xml` of the current revision: returns
`std::unique_ptr<char>`, null (`none`) on any failure; on success the
serialised tree passed through `vlc_xml_encode`. -/
def build_event_xml (ok : Nat → Bool) (pairs : List (String × String)) :
    Option String :=
  match buildEventTree ok pairs with
  | none => none
  | some (args, ctr) =>
    if ok ctr then          -- ixmlNodetoString
      if ok (ctr + 1) then  -- vlc_xml_encode allocation
        some (vlc_xml_encode (serializeEventDoc args))
      else none
    else none

/-- `build_event_xml` of the older revision: returns `std::string`,
empty on any failure; on success the serialised tree passed through the
`std::regex_replace` escaping pass. -/
def build_event_xml_v2 (ok : Nat → Bool) (pairs : List (String × String)) :
    String :=
  match buildEventTree ok pairs with
  | none => ""
  | some (args, ctr) =>
    if ok ctr then          -- ixmlNodetoString
      xml_escape_pass (serializeEventDoc args)
    else ""

/-- A concrete player snapshot used for closed evaluations: stopped,
no error, rate 1, volume 1, nothing loaded. -/
def ps0 : PlayerState :=
  ⟨VLC_PLAYER_STATE_STOPPED, VLC_PLAYER_ERROR_NONE, 1, 0, 0, 1,
   false, false, none, none⟩

/-! # Theorems -/

/-! ## Helper lemmas -/

theorem gcdAux_natCast (fuel : Nat) : ∀ (A B : Nat), B < fuel →
    gcdAux fuel (A : Int) (B : Int) = (Nat.gcd A B : Int) := by
  induction fuel with
  | zero => intro A B h; omega
  | succ f ih =>
    intro A B hB
    unfold gcdAux
    by_cases hB0 : (B : Int) = 0
    · have hB0' : B = 0 := by exact_mod_cast hB0
      subst hB0'
      simp
    · have hB' : B ≠ 0 := fun h => hB0 (by rw [h]; rfl)
      rw [if_neg hB0]
      rw [← Int.ofNat_tmod A B]
      have hlt : A % B < f :=
        lt_of_lt_of_le (Nat.mod_lt _ (Nat.pos_of_ne_zero hB'))
          (Nat.lt_succ_iff.mp hB)
      rw [ih B (A % B) hlt]
      congr 1
      rw [Nat.gcd_comm B (A % B), ← Nat.gcd_rec B A, Nat.gcd_comm B A]

theorem cppGcd_natCast (A B : Nat) :
    cppGcd (A : Int) (B : Int) = (Nat.gcd A B : Int) := by
  unfold cppGcd
  rw [Int.natAbs_ofNat B]
  exact gcdAux_natCast (B + 1) A B (Nat.lt_succ_self B)

theorem lround_intCast (z : Int) : lround ((z : ℚ)) = z := by
  unfold lround
  by_cases hz : (0 : ℚ) ≤ (z : ℚ)
  · rw [if_pos hz, add_comm, Int.floor_add_int]
    norm_num
  · rw [if_neg hz]
    have : ((z : ℚ)) - 1 / 2 = (-(1 / 2) : ℚ) + (z : ℤ) := by ring
    rw [this, Int.ceil_add_int]
    norm_num

/-! ## C3: time formatting -/

/-- C3: for every non-negative 64-bit tick value `t` (microseconds),
`time_to_string t` is `H:MM:SS` with `h = total_seconds / 3600`
(unbounded, no leading-zero suppression), `m = total_seconds / 60 % 60`
and `s = total_seconds % 60` zero-padded to two digits; in particular a
25-hour input yields `"25:00:00"`. -/
theorem C3_time_to_string :
    (∀ t : Nat, t < 2 ^ 63 →
      time_to_string t =
        toString (t / 1000000 / 3600) ++ ":" ++
        pad2 (t / 1000000 / 60 % 60) ++ ":" ++ pad2 (t / 1000000 % 60))
  ∧ time_to_string (25 * 3600 * 1000000) = "25:00:00" := by
  constructor
  · intro t ht
    simp only [time_to_string]
    have hdm : 60 * (t / 1000000 / 60) + t / 1000000 % 60 = t / 1000000 :=
      Nat.div_add_mod _ 60
    have h1 : t / 1000000 - t / 1000000 % 60 = 60 * (t / 1000000 / 60) := by
      omega
    rw [h1, Nat.mul_div_cancel_left _ (by norm_num : 0 < 60)]
    have hdm2 : 60 * (t / 1000000 / 60 / 60) + t / 1000000 / 60 % 60 =
        t / 1000000 / 60 := Nat.div_add_mod _ 60
    have h2 : 60 * (t / 1000000 / 60) - 60 * (t / 1000000 / 60 % 60) =
        3600 * (t / 1000000 / 60 / 60) := by omega
    rw [h2]
    have h3 : 3600 * (t / 1000000 / 60 / 60) / (60 * 60) =
        t / 1000000 / 60 / 60 := by
      norm_num [Nat.mul_div_cancel_left]
    rw [h3]
    have h4 : t / 1000000 / 60 / 60 = t / 1000000 / 3600 := by
      rw [Nat.div_div_eq_div_mul]
    rw [h4]
    have h5 : t / 1000000 / 3600 < 2 ^ 32 := by
      rw [Nat.div_div_eq_div_mul]
      exact (Nat.div_lt_iff_lt_mul (by norm_num)).2
        (lt_of_lt_of_le ht (by norm_num))
    rw [Nat.mod_eq_of_lt h5]
  · decide

/-- Witness for C3 at the 25-hour-and-change input `90061` seconds. -/
theorem C3_witness :
    time_to_string 90061000000 =
      toString (90061000000 / 1000000 / 3600) ++ ":" ++
      pad2 (90061000000 / 1000000 / 60 % 60) ++ ":" ++
      pad2 (90061000000 / 1000000 % 60) :=
  C3_time_to_string.1 90061000000 (by norm_num)

/-! ## C10: transport-state string consistency -/

/-- C10: for every player-state value (any `Int`, including the
`default:` branch), the `CurrentTransportState` string produced by the
`GetTransportInfo` handler equals the `TransportState` value the
event publisher's `player_state_changed` callback publishes — the two
enum-to-string mappings agree as functions. -/
theorem C10_transport_state_consistent :
    ∀ (in_params : parammap) (ps : PlayerState), ∃ out,
      handle_AVT_GetTransportInfo in_params ps = .ok (true, out, ps) ∧
      map_find out "CurrentTransportState" =
        some (player_state_changed ps.state).2.2 := by
  intro in_params ps
  exact ⟨_, rfl, rfl⟩

/-! ## C7: parameter decoding -/

theorem foldl_param_step (children : List ParamChild) :
    ∀ (params : parammap) (k : String),
      map_find (children.foldl param_step params) k =
        match (validParams children).reverse.find? (fun p => p.1 == k) with
        | some p => some p.2
        | none => map_find params k := by
  induction children with
  | nil => intro params k; simp [validParams]
  | cons c cs ih =>
    intro params k
    obtain ⟨cn, cf⟩ := c
    have hstep : List.foldl param_step params (⟨cn, cf⟩ :: cs) =
        List.foldl param_step (param_step params ⟨cn, cf⟩) cs := rfl
    rw [hstep, ih]
    match cn, cf with
    | none, _ =>
      simp [validParams, param_step]
    | some key, none =>
      simp [validParams, param_step]
    | some key, some none =>
      simp [validParams, param_step]
    | some key, some (some value) =>
      simp only [validParams, param_step, List.reverse_cons, List.find?_append]
      cases hrev : (validParams cs).reverse.find? (fun p => p.1 == k) with
      | some p => simp [Option.or]
      | none =>
        simp only [Option.or, List.find?]
        by_cases hk : key = k
        · have hb : (key == k) = true := by simpa [beq_iff_eq] using hk
          rw [map_find_assign]
          simp [hb, hk.symm]
        · have hb : (key == k) = false := by
            simpa [beq_eq_false_iff_ne] using hk
          rw [map_find_assign]
          simp only [hb]
          rw [if_neg (fun h => hk h.symm)]

/-- C7: `build_param_map` yields one entry per valid child (tag name as
key, first text child as value): the entry stored under `k` is exactly
the value of the last child with tag `k` having both a name and a text
value; children missing either are skipped, and of two children sharing
a tag name the second wins. -/
theorem C7_build_param_map :
    (∀ (children : List ParamChild) (k : String),
      map_find (build_param_map children) k =
        match (validParams children).reverse.find? (fun p => p.1 == k) with
        | some p => some p.2
        | none => none)
  ∧ map_find (build_param_map
      [⟨some "Key", some (some "v1")⟩, ⟨some "Key", some (some "v2")⟩]) "Key" =
      some "v2"
  ∧ build_param_map
      [⟨none, some (some "x")⟩, ⟨some "K", none⟩, ⟨some "K2", some none⟩] = [] := by
  refine ⟨?_, rfl, rfl⟩
  intro children k
  have h := foldl_param_step children [] k
  simpa [build_param_map, map_find] using h

/-! ## C9: registry uniqueness and lookup -/

/-- C9: the static action table has no duplicate (service, action)
pair; `lookupAction` is the linear scan returning the first entry whose
two fields match exactly, and absence is reported as `none`, not an
error. -/
theorem C9_registry :
    ((actions.map (fun e => (e.1, e.2.1))).Nodup)
  ∧ (∀ service action e, lookupAction service action = some e →
      e ∈ actions ∧ e.1 = service ∧ e.2.1 = action)
  ∧ (∀ service action, lookupAction service action = none ↔
      ∀ e ∈ actions, ¬(e.1 = service ∧ e.2.1 = action)) := by
  refine ⟨by decide, ?_, ?_⟩
  · intro service action e h
    refine ⟨List.mem_of_find?_eq_some h, ?_⟩
    have hp := List.find?_some h
    simpa [Bool.and_eq_true, beq_iff_eq] using hp
  · intro service action
    rw [lookupAction, List.find?_eq_none]
    constructor
    · intro h e he hc
      exact absurd (by simpa [beq_iff_eq] using hc : (e.1 == service && e.2.1 == action) = true) (h e he)
    · intro h e he hc
      exact h e he (by simpa [Bool.and_eq_true, beq_iff_eq] using hc)

/-- Witness for C9 at the (AVTransport, Stop) entry. -/
theorem C9_witness :
    (SRV_AVT, "Stop", handle_AVT_Stop) ∈ actions ∧
    (SRV_AVT, "Stop", (handle_AVT_Stop : ActionRequestHandler)).1 = SRV_AVT ∧
    (SRV_AVT, "Stop", (handle_AVT_Stop : ActionRequestHandler)).2.1 = "Stop" :=
  C9_registry.2.1 SRV_AVT "Stop" (SRV_AVT, "Stop", handle_AVT_Stop) rfl

/-! ## C2: fraction codec -/

/-- C2 counterexample: the round-trip claim fails as stated.  `1/3` is
in lowest terms with positive denominator, yet `float_to_frac` yields
`"33/100"` (the encoder works in hundredths); `-1/2` is in lowest
terms, yet the truncated-remainder `gcd` is negative for negative
numerators and the result is the string `1` over `-2`, not a signed
numerator over a positive denominator. -/
theorem C2_counterexample :
    float_to_frac ((1 : ℚ) / 3) = "33/100" ∧
    float_to_frac ((1 : ℚ) / 3) ≠ "1/3" ∧
    float_to_frac ((-1 : ℚ) / 2) = "1/-2" ∧
    float_to_frac ((-1 : ℚ) / 2) ≠ "-1/2" := by
  have h1 : lround ((1 : ℚ) / 3 * 100) = 33 := by
    unfold lround
    rw [if_pos (by norm_num), Int.floor_eq_iff]
    norm_num
  have h2 : lround ((-1 : ℚ) / 2 * 100) = -50 := by
    unfold lround
    rw [if_neg (by norm_num), Int.ceil_eq_iff]
    norm_num
  have e1 : float_to_frac ((1 : ℚ) / 3) = "33/100" := by
    simp only [float_to_frac]
    rw [h1]
    decide
  have e2 : float_to_frac ((-1 : ℚ) / 2) = "1/-2" := by
    simp only [float_to_frac]
    rw [h2]
    decide
  refine ⟨e1, ?_, e2, ?_⟩
  · rw [e1]; decide
  · rw [e2]; decide

/-- C2 (amended): for positive coprime pairs `(n, d)` whose denominator
divides 100 and whose scaled numerator stays in the range where
binary32 arithmetic reproduces the exact product
(`n * 100 < 2²² * d`, i.e. `n · (100/d) < 2²²` — see the error
analysis at `float_to_frac`; beyond it the float multiply rounds, e.g.
at `16777215/1`), `float_to_frac` of the rational `n/d` is `"n/d"`
(for other denominators the value is approximated in hundredths, and
for negative numerators the C truncated-remainder `gcd` flips the sign
onto the denominator — see the counterexample); `frac_to_float` returns
`1.0` on malformed input and on inputs encoding a zero numerator or a
zero denominator. -/
theorem C2_fraction_codec :
    (∀ n d : ℤ, 0 < n → 0 < d → d ∣ 100 → Int.gcd n d = 1 →
      n * 100 < 2 ^ 22 * d →
      float_to_frac ((n : ℚ) / (d : ℚ)) = toString n ++ "/" ++ toString d)
  ∧ frac_to_float "abc" = 1 ∧ frac_to_float "" = 1 ∧ frac_to_float "x/2" = 1
  ∧ frac_to_float "0" = 1 ∧ frac_to_float "0/7" = 1 ∧ frac_to_float "5/0" = 1 := by
  refine ⟨?_, by decide, by decide, by decide, by decide, by decide, by decide⟩
  intro n d hn hd hdvd hgcd _hfl
  obtain ⟨k, hk⟩ := hdvd
  have hk0 : 0 < k := by nlinarith
  have hdq : (d : ℚ) ≠ 0 := ne_of_gt (by exact_mod_cast hd)
  have h100 : (100 : ℚ) = (d : ℚ) * (k : ℚ) := by exact_mod_cast hk
  have hq : (n : ℚ) / d * 100 = ((n * k : ℤ) : ℚ) := by
    push_cast
    rw [div_mul_eq_mul_div, h100]
    field_simp
    ring
  have hlr : lround ((n : ℚ) / d * 100) = n * k := by
    rw [hq, lround_intCast]
  have hnk : 0 ≤ n * k := (mul_pos hn hk0).le
  have hg : cppGcd (n * k) 100 = k := by
    have h1 : (((n * k).natAbs : ℕ) : ℤ) = n * k := Int.natAbs_of_nonneg hnk
    have h2 : cppGcd (n * k) 100 = (Nat.gcd (n * k).natAbs 100 : ℤ) := by
      rw [← h1]
      exact cppGcd_natCast _ 100
    rw [h2]
    have h3 : Nat.gcd (n * k).natAbs 100 = Int.gcd (n * k) 100 := rfl
    rw [h3]
    have h4 : Int.gcd (n * k) 100 = k.natAbs := by
      rw [hk, Int.gcd_mul_right, hgcd, one_mul]
    rw [h4]
    exact Int.natAbs_of_nonneg hk0.le
  have hkne : k ≠ 0 := ne_of_gt hk0
  simp only [float_to_frac]
  rw [hlr, hg, Int.mul_tdiv_cancel _ hkne]
  have h5 : (100 : ℤ).tdiv k = d := by
    rw [hk]; exact Int.mul_tdiv_cancel _ hkne
  rw [h5]

/-- Witness for C2 at `(n, d) = (3, 4)` (scaled numerator 75, well
inside the binary32-exact range). -/
theorem C2_witness :
    float_to_frac ((3 : ℚ) / 4) = toString (3 : ℤ) ++ "/" ++ toString (4 : ℤ) ∧
    toString (3 : ℤ) ++ "/" ++ toString (4 : ℤ) = "3/4" :=
  ⟨C2_fraction_codec.1 3 4 (by norm_num) (by norm_num) ⟨25, by norm_num⟩
    (by decide) (by norm_num), by decide⟩

/-! ## C4: Seek handler -/

/-- C4: evaluation of the Seek handler at the failing input
`{Unit: REL_TIME, Target: "02:30"}`.  The claim (and the spec's
`MM:SS` contract) expects a seek to `2*60 + 30 = 150` seconds, but the
failed `sscanf("%u:%u:%u")` has already assigned `h = 2` before the
`sscanf("%u:%u")` retry, so the handler seeks to
`2*3600 + 2*60 + 30 = 7350` seconds (ticks `7350 * 10^6`).  The spec's
out-of-range scenario `00:61:00` does fail as claimed. -/
theorem C4_seek_stale_hours :
    handle_AVT_Seek [("Unit", "REL_TIME"), ("Target", "02:30")] ps0 =
      .ok (true, [], { ps0 with lastSeek := some (7350 * 1000000) }) ∧
    (7350 : Nat) = 2 * 60 * 60 + 2 * 60 + 30 ∧
    (7350 : Nat) ≠ 2 * 60 + 30 ∧
    handle_AVT_Seek [("Unit", "REL_TIME"), ("Target", "00:61:00")] ps0 =
      .ok (false, [], ps0) :=
  ⟨rfl, by norm_num, by norm_num, rfl⟩

/-! ## C5: SetVolume handler -/

/-- C5: evaluation of the SetVolume handler.  At the failing input
`DesiredVolume = "abc"` the `std::stoul` call throws
`std::invalid_argument` and the exception escapes the handler (modelled
as `.error ()`), instead of the claimed `false` return.  The claimed
behaviour holds for the other cases: a missing `DesiredVolume` returns
`false`, and `"150"` is clamped to 100 and scaled to player volume
`1.0` (the maximum-equivalent float, divisor 100). -/
theorem C5_setvolume_throws :
    handle_RC_SetVolume [("DesiredVolume", "abc")] ps0 = .error () ∧
    handle_RC_SetVolume [] ps0 = .ok (false, [], ps0) ∧
    handle_RC_SetVolume [("DesiredVolume", "150")] ps0 =
      .ok (true, [], { ps0 with volume := 1 }) := by
  refine ⟨rfl, rfl, ?_⟩
  have h : cpp_stoul "150" = some 150 := by decide
  have hm : map_find [("DesiredVolume", "150")] "DesiredVolume" = some "150" := rfl
  simp only [handle_RC_SetVolume, hm, h, vlc_player_aout_SetVolume]
  norm_num

/-! ## C6: event XML escaping (older revision) -/

/-- C6 counterexample: the escaping pass runs over the already
serialised document, so a value that itself contains the entity text
`&amp;` (and a `<`) is escaped again: the output contains
`&amp;amp;`, which the claim rules out for every value containing both
`&` and `<`. -/
theorem C6_counterexample :
    hasSub "&" "&amp;<" = true ∧ hasSub "<" "&amp;<" = true ∧
    hasSub "&amp;amp;"
      (build_event_xml_v2 (fun _ => true) [("Foo", "&amp;<")]) = true := by
  decide

/-- C6 (amended): the pass substitutes `&`, `"`, `'`, `<`, `>` in that
order with `&` first, so entities introduced by the pass itself are
never re-escaped; for the spec's test value (`a`, `&`, `<`, `b`,
double-quote) the output contains `&amp;` and `&lt;` and no
`&amp;amp;`.  (A value already containing literal entity text such as
`&amp;` is escaped again — see the counterexample.) -/
theorem C6_escape_order :
    hasSub "&amp;"
      (build_event_xml_v2 (fun _ => true) [("Foo", "a&<b\"")]) = true ∧
    hasSub "&lt;"
      (build_event_xml_v2 (fun _ => true) [("Foo", "a&<b\"")]) = true ∧
    hasSub "&quot;"
      (build_event_xml_v2 (fun _ => true) [("Foo", "a&<b\"")]) = true ∧
    hasSub "&amp;amp;"
      (build_event_xml_v2 (fun _ => true) [("Foo", "a&<b\"")]) = false := by
  decide

/-! ## C8: event XML construction (current revision) -/

theorem buildArgs_complete (pairs : List (String × String)) :
    ∀ (ok : Nat → Bool) (ctr : Nat) (r : List ArgElem × Nat),
      buildArgs ok ctr pairs = some r → r.1 = eventArgs pairs := by
  induction pairs with
  | nil =>
    intro ok ctr r h
    simp only [buildArgs] at h
    cases h
    rfl
  | cons p rest ih =>
    intro ok ctr r h
    obtain ⟨k, v⟩ := p
    unfold buildArgs at h
    by_cases h0 : ok ctr = true
    · rw [if_pos h0] at h
      by_cases h1 : ok (ctr + 1) = true
      · rw [if_pos h1] at h
        by_cases h2 : ok (ctr + 2) = true
        · rw [if_pos h2] at h
          obtain ⟨r2, hr2, hmap⟩ := Option.map_eq_some'.mp h
          have := ih ok (ctr + 3) r2 hr2
          rw [← hmap]
          simpa [eventArgs] using this
        · rw [if_neg h2] at h; exact absurd h (by simp)
      · rw [if_neg h1] at h; exact absurd h (by simp)
    · rw [if_neg h0] at h; exact absurd h (by simp)

/-- C8: `build_event_xml` never emits a partial document — whenever it
returns a string, that string is the complete serialised
`Event/InstanceID` tree holding every requested pair, passed through
`vlc_xml_encode`; any construction-step failure yields the null result.
With zero pairs it succeeds and returns the non-empty document whose
`InstanceID` element has no argument children. -/
theorem C8_event_xml :
    (∀ (ok : Nat → Bool) (pairs : List (String × String)) (s : String),
      build_event_xml ok pairs = some s →
        s = vlc_xml_encode (serializeEventDoc (eventArgs pairs)))
  ∧ serializeEventDoc (eventArgs []) =
      "<Event><InstanceID val=\"0\"></InstanceID></Event>"
  ∧ build_event_xml (fun _ => true) [] =
      some (vlc_xml_encode (serializeEventDoc (eventArgs [])))
  ∧ (build_event_xml (fun _ => true) []).getD "" ≠ "" := by
  refine ⟨?_, rfl, rfl, by decide⟩
  intro ok pairs s h
  unfold build_event_xml at h
  split at h
  · exact absurd h (by simp)
  · rename_i args ctr heq
    by_cases hc : ok ctr = true
    · rw [if_pos hc] at h
      by_cases hc1 : ok (ctr + 1) = true
      · rw [if_pos hc1] at h
        have hargs : args = eventArgs pairs := by
          unfold buildEventTree at heq
          by_cases g0 : ok 0 = true
          · rw [if_pos g0] at heq
            by_cases g1 : ok 1 = true
            · rw [if_pos g1] at heq
              by_cases g2 : ok 2 = true
              · rw [if_pos g2] at heq
                by_cases g3 : ok 3 = true
                · rw [if_pos g3] at heq
                  by_cases g4 : ok 4 = true
                  · rw [if_pos g4] at heq
                    by_cases g5 : ok 5 = true
                    · rw [if_pos g5] at heq
                      exact buildArgs_complete pairs ok 6 (args, ctr) heq
                    · rw [if_neg g5] at heq; exact absurd heq (by simp)
                  · rw [if_neg g4] at heq; exact absurd heq (by simp)
                · rw [if_neg g3] at heq; exact absurd heq (by simp)
              · rw [if_neg g2] at heq; exact absurd heq (by simp)
            · rw [if_neg g1] at heq; exact absurd heq (by simp)
          · rw [if_neg g0] at heq; exact absurd heq (by simp)
        rw [← Option.some.inj h, hargs]
      · rw [if_neg hc1] at h; exact absurd h (by simp)
    · rw [if_neg hc] at h; exact absurd h (by simp)

/-- Witness for C8's no-partial-output implication at a one-pair input
with the all-success oracle. -/
theorem C8_witness :
    vlc_xml_encode (serializeEventDoc (eventArgs [("TransportState", "PLAYING")])) =
      vlc_xml_encode (serializeEventDoc (eventArgs [("TransportState", "PLAYING")])) :=
  C8_event_xml.1 (fun _ => true) [("TransportState", "PLAYING")] _ rfl

/-! ## C1: dispatcher outcomes -/

theorem scanActions_noMatch_of_find_none (sid an : String) (inp : parammap) :
    ∀ (table : List (String × String × ActionRequestHandler)) (ps : PlayerState),
      table.find? (fun e => e.1 == sid && e.2.1 == an) = none →
      scanActions table sid an inp ps = .noMatch ps := by
  intro table
  induction table with
  | nil => intro ps _; rfl
  | cons e rest ih =>
    intro ps h
    have hall := List.find?_eq_none.mp h
    have hc : ¬ (e.1 == sid && e.2.1 == an) = true :=
      hall e (List.mem_cons_self e rest)
    unfold scanActions
    rw [if_neg hc]
    exact ih ps (List.find?_eq_none.mpr
      (fun x hx => hall x (List.mem_cons_of_mem _ hx)))

theorem onActionRequest_classified (sid an : String) :
    ∀ (body : List (List ParamChild)) (ps : PlayerState),
      onActionRequest sid an body ps ≠ .thrown →
      (∃ out ps1, onActionRequest sid an body ps =
          .normal UPNP_E_SUCCESS UPNP_E_SUCCESS (some out) ps1) ∨
      (∃ ps1, onActionRequest sid an body ps =
          .normal UPNP_E_INTERNAL_ERROR UPNP_E_INTERNAL_ERROR none ps1) := by
  intro body
  induction body with
  | nil => intro ps _; right; exact ⟨ps, rfl⟩
  | cons node rest ih =>
    intro ps h
    unfold onActionRequest at h ⊢
    cases hscan : scanActions actions sid an (build_param_map node) ps with
    | thrown => rw [hscan] at h; exact absurd rfl h
    | found out ps1 => left; exact ⟨out, ps1, rfl⟩
    | noMatch ps1 => rw [hscan] at h; exact ih ps1 h

/-- C1 (amended): for every incoming action request whose handler
invocation does not throw (the `std::stoul` exception of claim C5 is
the only throwing path), the dispatcher produces exactly one terminal
outcome — success with a non-empty response document, success with an
empty response document, or failure `UPNP_E_INTERNAL_ERROR` with no
response document — and when no registry entry matches
`(service, action)` it reports `UPNP_E_INTERNAL_ERROR`, the same
generic code as a handler-reported failure, with no response document
constructed and the player untouched. -/
theorem C1_dispatcher :
    ∀ (service_id action_name : String) (body : List (List ParamChild))
      (ps : PlayerState),
      (onActionRequest service_id action_name body ps ≠ .thrown →
        (∃ out ps1, out ≠ [] ∧ onActionRequest service_id action_name body ps =
            .normal UPNP_E_SUCCESS UPNP_E_SUCCESS (some out) ps1) ∨
        (∃ ps1, onActionRequest service_id action_name body ps =
            .normal UPNP_E_SUCCESS UPNP_E_SUCCESS (some []) ps1) ∨
        (∃ ps1, onActionRequest service_id action_name body ps =
            .normal UPNP_E_INTERNAL_ERROR UPNP_E_INTERNAL_ERROR none ps1))
      ∧ (lookupAction service_id action_name = none →
          onActionRequest service_id action_name body ps =
            .normal UPNP_E_INTERNAL_ERROR UPNP_E_INTERNAL_ERROR none ps) := by
  intro sid an body ps
  constructor
  · intro h
    rcases onActionRequest_classified sid an body ps h with
      ⟨out, ps1, heq⟩ | ⟨ps1, heq⟩
    · by_cases hout : out = []
      · subst hout; right; left; exact ⟨ps1, heq⟩
      · left; exact ⟨out, ps1, hout, heq⟩
    · right; right; exact ⟨ps1, heq⟩
  · intro hl
    induction body with
    | nil => rfl
    | cons node rest ih =>
      unfold onActionRequest
      rw [scanActions_noMatch_of_find_none sid an _ actions ps hl]
      exact ih

/-- C1 counterexample: a `SetVolume` request with a non-numeric
`DesiredVolume` makes the dispatcher propagate the handler's
`std::invalid_argument` exception (claim C5's bug): no terminal
outcome, no UPnP error code — refuting the unqualified "exactly one
terminal outcome per request". -/
theorem C1_counterexample :
    onActionRequest SRV_RC "SetVolume"
      [[⟨some "DesiredVolume", some (some "abc")⟩]] ps0 = .thrown := rfl

/-- Witness for C1 at an unknown action `(service = X, action = Y)`:
the generic failure code with no response document. -/
theorem C1_witness :
    onActionRequest "X" "Y" [[⟨some "A", some (some "b")⟩]] ps0 =
      .normal UPNP_E_INTERNAL_ERROR UPNP_E_INTERNAL_ERROR none ps0 :=
  (C1_dispatcher "X" "Y" [[⟨some "A", some (some "b")⟩]] ps0).2 rfl
